import Mathlib

/-!
Verification of the nbpy exchange-rate retrieval-and-conversion engine.

The `NBPExchangeRate` value object is embedded from
`src/nbpy/exchange_rate.py`.  The client orchestration (`NBPClient`) is not
shipped under `src/` (only its test suite `src/tests/test_client.py` is), so
its fetch pipeline is modelled from the specification, constrained by the
behaviour the tests exercise.  Python `Decimal`/`float` rate values are
modelled as rationals `ℚ`; Python keyword-argument absence is modelled with
`Option`; a raised exception is modelled with `Except.error`.
-/

namespace NBPy

/-- Error taxonomy of `nbpy.errors` (referenced from the embedded source and
from the spec, §7): unknown currency code at construction, bid/ask requested
for a currency outside the bid/ask table, transport/API failure carrying the
observed status code when available, and the date-range validation error. -/
inductive NBPError where
  | UnknownCurrencyCode (code : String)
  | BidAskUnavailable
  | APIError (status : Option Nat)
  | DateRangeError
deriving DecidableEq

/-- Upper-casing of a string, character by character: the model of Python's
`str.upper()` as applied to currency codes. -/
def strUpper (s : String) : String := ⟨s.data.map Char.toUpper⟩

/-- Lower-casing of a string, character by character: the model of Python's
`str.lower()` as applied in resource locators. -/
def strLower (s : String) : String := ⟨s.data.map Char.toLower⟩

/-- One entry of the currency registry (`nbpy.currencies`): code, display
name, and the set of publication tables the currency belongs to. -/
structure CurrencyEntry where
  code : String
  name : String
  tables : List String
deriving DecidableEq

/-- The currency registry, abstracted as a list of entries keyed by code. -/
abbrev Registry := List CurrencyEntry

/-- Registry lookup by exact code. -/
def lookupCurrency (reg : Registry) (code : String) : Option CurrencyEntry :=
  reg.find? (fun entry => entry.code == code)

/-- Membership test used by the `currency_code` setter (`code in currencies`). -/
def registryContains (reg : Registry) (code : String) : Bool :=
  (lookupCurrency reg code).isSome

/-- The `currency_code` property setter of `NBPExchangeRate`
(src/nbpy/exchange_rate.py lines 47-52): upper-case the code, raise
`UnknownCurrencyCode` when it is not in the registry, otherwise store it. -/
def setCurrencyCode (reg : Registry) (code : String) : Except NBPError String :=
  let code := strUpper code
  if registryContains reg code then Except.ok code
  else Except.error (NBPError.UnknownCurrencyCode code)

/-- Embedding of the `NBPExchangeRate` object (src/nbpy/exchange_rate.py).
The `bid`/`ask` attributes are sometimes absent on the Python object; the
field `bidask` is `none` exactly when they are absent. -/
structure NBPExchangeRate where
  currency_code : String
  date : String
  source_id : String
  mid : ℚ
  bidask : Option (ℚ × ℚ)
deriving DecidableEq

/-- `NBPExchangeRate.__init__` (src/nbpy/exchange_rate.py lines 13-22): the
`currency_code` setter runs first and raises on an unknown code; `bid` and
`ask` are stored only when both keyword arguments are supplied. -/
def mkExchangeRate (reg : Registry) (currency_code date source_id : String)
    (mid : ℚ) (bid ask : Option ℚ) : Except NBPError NBPExchangeRate :=
  match setCurrencyCode reg currency_code with
  | Except.error e => Except.error e
  | Except.ok code =>
      Except.ok
        { currency_code := code
          date := date
          source_id := source_id
          mid := mid
          bidask :=
            match bid, ask with
            | some b, some a => some (b, a)
            | _, _ => none }

/-- The dictionary returned by `NBPExchangeRate.__call__`: always a `mid`
entry, and `bid`/`ask` entries exactly when the receiver carries them. -/
structure ScaledAmount where
  mid : ℚ
  bidask : Option (ℚ × ℚ)
deriving DecidableEq

/-- `NBPExchangeRate.__call__` (src/nbpy/exchange_rate.py lines 59-70):
with `bid`/`ask` present return all three products, otherwise the
`AttributeError` branch returns the `mid` product alone. -/
def NBPExchangeRate.call (r : NBPExchangeRate) (amount : ℚ) : ScaledAmount :=
  match r.bidask with
  | some ba => { mid := r.mid * amount, bidask := some (ba.1 * amount, ba.2 * amount) }
  | none => { mid := r.mid * amount, bidask := none }

/-- `NBPExchangeRate.__mul__` (src/nbpy/exchange_rate.py lines 72-74):
`r * amount` delegates to `r(amount)`. -/
def NBPExchangeRate.mul (r : NBPExchangeRate) (amount : ℚ) : ScaledAmount :=
  r.call amount

/-- `NBPExchangeRate.__rmul__` (src/nbpy/exchange_rate.py lines 76-78):
`amount * r` delegates to `r(amount)`. -/
def NBPExchangeRate.rmul (amount : ℚ) (r : NBPExchangeRate) : ScaledAmount :=
  r.call amount

/-- Modelled from the spec: client configuration (§3).  The `NBPClient`
implementation (`nbpy/__init__.py`) is not shipped under `src/`; its
configuration fields match the keyword arguments exercised by
`src/tests/test_client.py`. -/
structure NBPClient where
  currency_code : String
  as_float : Bool
  suppress_errors : Bool
deriving DecidableEq

/-- Modelled from the spec: `NBPClient` construction validates the currency
code exactly like the `ExchangeRate` setter (§3, §7: fails with
`UnknownCurrencyCode`, never suppressed). -/
def mkClient (reg : Registry) (currency_code : String)
    (as_float suppress_errors : Bool) : Except NBPError NBPClient :=
  match setCurrencyCode reg currency_code with
  | Except.error e => Except.error e
  | Except.ok code =>
      Except.ok
        { currency_code := code
          as_float := as_float
          suppress_errors := suppress_errors }

/-- Rate kind selected by the caller's `bid_ask` flag (§4.3). -/
inductive RateKind where
  | MID_ONLY
  | BID_ASK
deriving DecidableEq

/-- Request shapes of the fetch state machine (§4.3).  Dates are ISO
`YYYY-MM-DD` strings, whose lexicographic order is the calendar order. -/
inductive RequestShape where
  | CURRENT
  | TODAY
  | ON_DATE (date : String)
  | RANGE (start stop : String)
deriving DecidableEq

/-- One record of the response payload (§6): source id `no`, effective date,
and either `mid` or `bid`+`ask` numeric fields. -/
structure PayloadRate where
  no : String
  effectiveDate : String
  mid : Option ℚ
  bid : Option ℚ
  ask : Option ℚ
deriving DecidableEq

/-- The response payload shape (§6). -/
structure Payload where
  table : String
  currency : String
  code : String
  rates : List PayloadRate
deriving DecidableEq

/-- Outcome of one transport call (§6): a status code with an optional
parsed body, or a connectivity failure. -/
inductive TransportOutcome where
  | response (status : Nat) (body : Option Payload)
  | failure
deriving DecidableEq

/-- Status code observed in a transport outcome, when available. -/
def outcomeStatus : TransportOutcome → Option Nat
  | TransportOutcome.response status _ => some status
  | TransportOutcome.failure => none

/-- A transport outcome counts as success only with status 200 and a body. -/
def isSuccess : TransportOutcome → Bool
  | TransportOutcome.response status (some _) => status == 200
  | _ => false

/-- The bid/ask publication table identifier (table `C`, as probed by
`src/tests/test_client.py` via `'C' in currency.tables`). -/
def bidAskTable : String := "C"

/-- Modelled from the spec: table selection (§4.3 step 2) — the bid/ask
table for `BID_ASK`, the currency's mid-only table otherwise. -/
def tableFor (entry : CurrencyEntry) : RateKind → String
  | RateKind.BID_ASK => bidAskTable
  | RateKind.MID_ONLY => (entry.tables.filter (fun t => t != bidAskTable)).headD "A"

/-- The date tail of the resource locator, per request shape (§6). -/
def uriTail : RequestShape → String
  | RequestShape.CURRENT => ""
  | RequestShape.TODAY => "today"
  | RequestShape.ON_DATE d => d
  | RequestShape.RANGE s t => s ++ "/" ++ t

/-- The resource locator sent to the transport (§6), matching the mock URI
built in `src/tests/test_client.py` lines 49-54: table and currency code
lower-cased, date tail per request shape. -/
def resourceLocator (base table code : String) (shape : RequestShape) : String :=
  base ++ "/exchangerates/rates/" ++ strLower table ++ "/" ++ strLower code
    ++ "/" ++ uriTail shape

/-- The locator a fetch for this client/shape/kind sends to the transport. -/
def fetchURI (base : String) (entry : CurrencyEntry) (client : NBPClient)
    (shape : RequestShape) (kind : RateKind) : String :=
  resourceLocator base (tableFor entry kind) client.currency_code shape

/-- Lexicographic strict order on character lists, used to compare ISO
`YYYY-MM-DD` date strings (lexicographic order is the calendar order). -/
def charListLt : List Char → List Char → Bool
  | [], [] => false
  | [], _ :: _ => true
  | _ :: _, [] => false
  | a :: as, b :: bs => if a < b then true else if b < a then false else charListLt as bs

/-- Strict order on date strings. -/
def strLt (s t : String) : Bool := charListLt s.data t.data

/-- Range validation (§4.3): a `RANGE` request requires `start <= end`. -/
def validRange : RequestShape → Bool
  | RequestShape.RANGE s t => !(strLt t s)
  | _ => true

/-- Bid/ask precondition (§4.3 step 1): `BID_ASK` requires the configured
currency to belong to the bid/ask table. -/
def bidAskOK (entry : CurrencyEntry) : RateKind → Bool
  | RateKind.MID_ONLY => true
  | RateKind.BID_ASK => entry.tables.contains bidAskTable

/-- One `ExchangeRate` constructed from a payload record (§4.3 step 5); the
client's already-validated code is reused, `bid`/`ask` become present only
when the record carries both. -/
def rateFromRecord (code : String) (rec : PayloadRate) : NBPExchangeRate :=
  { currency_code := code
    date := rec.effectiveDate
    source_id := rec.no
    mid := rec.mid.getD 0
    bidask :=
      match rec.bid, rec.ask with
      | some b, some a => some (b, a)
      | _, _ => none }

/-- Result value of a successful fetch: one rate for `CURRENT`, `TODAY` and
`ON_DATE`, the ordered sequence of rates for `RANGE`. -/
inductive FetchValue where
  | one (r : NBPExchangeRate)
  | many (rs : List NBPExchangeRate)
deriving DecidableEq

/-- Modelled from the spec: the un-suppressed fetch pipeline (§4.3 steps
1-5).  Validation and the bid/ask precondition are checked before any
transport access; the second component lists the resource locators sent to
the transport collaborator, in order. -/
def fetchSteps (reg : Registry) (base : String) (client : NBPClient)
    (transport : String → TransportOutcome)
    (shape : RequestShape) (kind : RateKind) :
    Except NBPError FetchValue × List String :=
  if validRange shape then
    match lookupCurrency reg client.currency_code with
    | none => (Except.error (NBPError.UnknownCurrencyCode client.currency_code), [])
    | some entry =>
      if bidAskOK entry kind then
        let uri := fetchURI base entry client shape kind
        match transport uri with
        | TransportOutcome.failure => (Except.error (NBPError.APIError none), [uri])
        | TransportOutcome.response status body =>
          if status = 200 then
            match body with
            | none => (Except.error (NBPError.APIError (some status)), [uri])
            | some payload =>
              match shape with
              | RequestShape.RANGE _ _ =>
                  (Except.ok (FetchValue.many
                    (payload.rates.map (rateFromRecord client.currency_code))), [uri])
              | _ =>
                  match payload.rates with
                  | [] => (Except.error (NBPError.APIError (some status)), [uri])
                  | rec :: _ =>
                      (Except.ok (FetchValue.one
                        (rateFromRecord client.currency_code rec)), [uri])
          else (Except.error (NBPError.APIError (some status)), [uri])
      else (Except.error NBPError.BidAskUnavailable, [])
  else (Except.error NBPError.DateRangeError, [])

/-- What a client call hands back to the caller: a value, a raised error, or
the Python `None` returned when errors are suppressed. -/
inductive CallResult where
  | value (v : FetchValue)
  | raised (e : NBPError)
  | noResult
deriving DecidableEq

/-- Modelled from the spec: the suppression policy (§4.3 step 6) — with
`suppress_errors` any pipeline failure becomes the absence value `noResult`
(Python `None`); otherwise it is raised. -/
def clientCall (reg : Registry) (base : String) (client : NBPClient)
    (transport : String → TransportOutcome)
    (shape : RequestShape) (kind : RateKind) : CallResult × List String :=
  match fetchSteps reg base client transport shape kind with
  | (Except.ok v, log) => (CallResult.value v, log)
  | (Except.error e, log) =>
      if client.suppress_errors then (CallResult.noResult, log)
      else (CallResult.raised e, log)

/-- The rate kind selected by the `bid_ask` flag passed at call time. -/
def kindOf (bid_ask : Bool) : RateKind :=
  if bid_ask then RateKind.BID_ASK else RateKind.MID_ONLY

/-- Modelled from the spec: the `current()` accessor (§4.3 calling
conventions), fetching with shape `CURRENT`. -/
def NBPClient.current (client : NBPClient) (reg : Registry) (base : String)
    (transport : String → TransportOutcome) (bid_ask : Bool) :
    CallResult × List String :=
  clientCall reg base client transport RequestShape.CURRENT (kindOf bid_ask)

/-- Modelled from the spec: the `today()` accessor (§4.3 calling
conventions), fetching with shape `TODAY`. -/
def NBPClient.today (client : NBPClient) (reg : Registry) (base : String)
    (transport : String → TransportOutcome) (bid_ask : Bool) :
    CallResult × List String :=
  clientCall reg base client transport RequestShape.TODAY (kindOf bid_ask)

/-- Modelled from the spec: the `date(isoDate)` accessor (§4.3 calling
conventions), fetching with shape `ON_DATE`. -/
def NBPClient.date (client : NBPClient) (reg : Registry) (base : String)
    (transport : String → TransportOutcome) (d : String) (bid_ask : Bool) :
    CallResult × List String :=
  clientCall reg base client transport (RequestShape.ON_DATE d) (kindOf bid_ask)

/-- Modelled from the spec: direct invocation of the client object
(`__call__`), equivalent to the `current()` accessor (§4.3 calling
conventions). -/
def NBPClient.call (client : NBPClient) (reg : Registry) (base : String)
    (transport : String → TransportOutcome) (bid_ask : Bool) :
    CallResult × List String :=
  clientCall reg base client transport RequestShape.CURRENT (kindOf bid_ask)

/-- C1: for every constructed `ExchangeRate` and amount `a`, scaling is a pure
function of the receiver's fields — with `bid`/`ask` present it returns
exactly `{bid: bid*a, ask: ask*a, mid: mid*a}`, with them absent exactly
`{mid: mid*a}`; any receiver with the same fields scales identically, and the
receiver itself is untouched (the embedding of `__call__` is a function that
only reads `mid` and `bidask`). -/
theorem call_scales_all_fields (r : NBPExchangeRate) (a : ℚ) :
    (∀ b k : ℚ, r.bidask = some (b, k) →
        r.call a = { mid := r.mid * a, bidask := some (b * a, k * a) }) ∧
    (r.bidask = none → r.call a = { mid := r.mid * a, bidask := none }) ∧
    (∀ s : NBPExchangeRate, s.mid = r.mid → s.bidask = r.bidask →
        s.call a = r.call a) := by
  refine ⟨?_, ?_, ?_⟩
  · intro b k h
    simp [NBPExchangeRate.call, h]
  · intro h
    simp [NBPExchangeRate.call, h]
  · intro s hm hb
    simp [NBPExchangeRate.call, hm, hb]

/-- Witness for C1: a concrete rate with `bid = 3`, `ask = 5`, `mid = 4`,
scaled by 2. -/
theorem call_scales_all_fields_witness :
    (⟨"EUR", "2020-01-02", "1/A/NBP/2020", 4, some (3, 5)⟩ : NBPExchangeRate).call 2
      = { mid := 4 * 2, bidask := some (3 * 2, 5 * 2) } :=
  (call_scales_all_fields ⟨"EUR", "2020-01-02", "1/A/NBP/2020", 4, some (3, 5)⟩ 2).1
    3 5 rfl

/-- C2: construction of an `ExchangeRate` or a `Client` upper-cases the
currency code and validates it against the registry: an unknown code fails
with `UnknownCurrencyCode` (nothing is constructed), a known code succeeds
and stores the upper-cased form. -/
theorem construct_validates_currency_code
    (reg : Registry) (code d s : String) (m : ℚ) (bid ask : Option ℚ)
    (f e : Bool) :
    (registryContains reg (strUpper code) = false →
        mkExchangeRate reg code d s m bid ask
            = Except.error (NBPError.UnknownCurrencyCode (strUpper code)) ∧
        mkClient reg code f e
            = Except.error (NBPError.UnknownCurrencyCode (strUpper code))) ∧
    (registryContains reg (strUpper code) = true →
        (∃ r : NBPExchangeRate, mkExchangeRate reg code d s m bid ask = Except.ok r ∧
            r.currency_code = strUpper code) ∧
        (∃ c : NBPClient, mkClient reg code f e = Except.ok c ∧
            c.currency_code = strUpper code)) := by
  constructor
  · intro h
    constructor <;> simp [mkExchangeRate, mkClient, setCurrencyCode, h]
  · intro h
    refine ⟨⟨⟨strUpper code, d, s, m,
        match bid, ask with
        | some b, some a => some (b, a)
        | _, _ => none⟩, ?_, rfl⟩, ⟨⟨strUpper code, f, e⟩, ?_, rfl⟩⟩ <;>
      simp [mkExchangeRate, mkClient, setCurrencyCode, h]

/-- Witness for C2: code `xyz` is unknown to a registry holding only `EUR`,
so `ExchangeRate` construction fails with `UnknownCurrencyCode XYZ`. -/
theorem construct_validates_currency_code_witness :
    mkExchangeRate [⟨"EUR", "euro", ["A", "C"]⟩] "xyz" "2020-01-02" "1" 4 none none
      = Except.error (NBPError.UnknownCurrencyCode (strUpper "xyz")) :=
  ((construct_validates_currency_code [⟨"EUR", "euro", ["A", "C"]⟩] "xyz" "2020-01-02"
      "1" 4 none none false false).1 (by decide)).1

/-- C3: an `ExchangeRate` built from a mid-only record has `bid`/`ask`
structurally absent — the `bidask` field is `none`, equal to no `some` value
(so neither zero nor any other pair), and probing with `isSome` detects the
absence; presence arises only from records carrying both `bid` and `ask`. -/
theorem midonly_bidask_structurally_absent
    (reg : Registry) (cc d s c : String) (m : ℚ) (r : NBPExchangeRate)
    (rec : PayloadRate)
    (hmk : mkExchangeRate reg cc d s m none none = Except.ok r)
    (hrec : rec.bid = none ∨ rec.ask = none) :
    r.bidask = none ∧
    (rateFromRecord c rec).bidask = none ∧
    (∀ p : ℚ × ℚ, r.bidask ≠ some p) ∧
    (∀ rec2 : PayloadRate, ((rateFromRecord c rec2).bidask).isSome = true →
        rec2.bid.isSome = true ∧ rec2.ask.isSome = true) := by
  have habs : ∀ rec2 : PayloadRate, rec2.bid = none ∨ rec2.ask = none →
      (rateFromRecord c rec2).bidask = none := by
    intro rec2 h
    unfold rateFromRecord
    rcases hb2 : rec2.bid with _ | b2 <;> rcases ha2 : rec2.ask with _ | a2 <;>
      simp_all
  have hb : r.bidask = none := by
    unfold mkExchangeRate at hmk
    cases hsc : setCurrencyCode reg cc with
    | error err => rw [hsc] at hmk; cases hmk
    | ok code =>
        rw [hsc] at hmk
        cases hmk
        rfl
  refine ⟨hb, habs rec hrec, ?_, ?_⟩
  · intro p
    rw [hb]
    simp
  · intro rec2 hsome
    rcases hb2 : rec2.bid with _ | b2 <;> rcases ha2 : rec2.ask with _ | a2 <;>
      unfold rateFromRecord at hsome <;> simp_all

/-- Witness for C3: a concrete mid-only construction and record. -/
theorem midonly_bidask_structurally_absent_witness :
    (⟨"EUR", "2020-01-02", "1", 4, none⟩ : NBPExchangeRate).bidask = none :=
  (midonly_bidask_structurally_absent [⟨"EUR", "euro", ["A", "C"]⟩] "eur" "2020-01-02"
      "1" "EUR" 4 ⟨"EUR", "2020-01-02", "1", 4, none⟩
      ⟨"1", "2020-01-02", some 4, none, none⟩ rfl (Or.inl rfl)).1

/-- C9: supplying exactly one of `bid`/`ask` at construction succeeds and the
supplied value is silently ignored: both partial constructions produce the
very same object as the mid-only construction, with `bid`/`ask` absent, and
scaling it returns the `mid` product alone. -/
theorem partial_bidask_ignored (reg : Registry) (cc d s : String) (m q a : ℚ)
    (hreg : registryContains reg (strUpper cc) = true) :
    ∃ r : NBPExchangeRate,
      mkExchangeRate reg cc d s m (some q) none = Except.ok r ∧
      mkExchangeRate reg cc d s m none (some q) = Except.ok r ∧
      mkExchangeRate reg cc d s m none none = Except.ok r ∧
      r.bidask = none ∧
      r.call a = { mid := m * a, bidask := none } := by
  refine ⟨⟨strUpper cc, d, s, m, none⟩, ?_, ?_, ?_, rfl, ?_⟩ <;>
    simp [mkExchangeRate, setCurrencyCode, hreg, NBPExchangeRate.call]

/-- Witness for C9: `EUR` with only `bid = 3` supplied, scaled by 2. -/
theorem partial_bidask_ignored_witness :
    ∃ r : NBPExchangeRate,
      mkExchangeRate [⟨"EUR", "euro", ["A", "C"]⟩] "EUR" "2020-01-02" "1" 4
          (some 3) none = Except.ok r ∧
      mkExchangeRate [⟨"EUR", "euro", ["A", "C"]⟩] "EUR" "2020-01-02" "1" 4
          none (some 3) = Except.ok r ∧
      mkExchangeRate [⟨"EUR", "euro", ["A", "C"]⟩] "EUR" "2020-01-02" "1" 4
          none none = Except.ok r ∧
      r.bidask = none ∧
      r.call 2 = { mid := 4 * 2, bidask := none } :=
  partial_bidask_ignored [⟨"EUR", "euro", ["A", "C"]⟩] "EUR" "2020-01-02" "1" 4 3 2
    (by decide)

/-- C10: the multiplication operators `__mul__` (`r * a`) and `__rmul__`
(`a * r`) are exact aliases of the scaling call `r(a)`. -/
theorem mul_aliases_call (r : NBPExchangeRate) (a : ℚ) :
    r.mul a = r.call a ∧ NBPExchangeRate.rmul a r = r.call a :=
  ⟨rfl, rfl⟩

/-- C4: for a client whose currency is outside the bid/ask table, every entry
point (`current`, `today`, `date`, direct invocation) with the bid/ask flag
fails with `BidAskUnavailable` (the absence value under suppression), with an
empty transport log — so the check precedes any network access and holds for
every transport behaviour, taking priority over any transport error. -/
theorem bidask_unavailable_checked_before_network
    (reg : Registry) (base : String) (client : NBPClient)
    (transport : String → TransportOutcome) (d : String) (entry : CurrencyEntry)
    (hlook : lookupCurrency reg client.currency_code = some entry)
    (hnc : entry.tables.contains bidAskTable = false) :
    client.current reg base transport true
      = ((if client.suppress_errors then CallResult.noResult
          else CallResult.raised NBPError.BidAskUnavailable), []) ∧
    client.today reg base transport true
      = ((if client.suppress_errors then CallResult.noResult
          else CallResult.raised NBPError.BidAskUnavailable), []) ∧
    client.date reg base transport d true
      = ((if client.suppress_errors then CallResult.noResult
          else CallResult.raised NBPError.BidAskUnavailable), []) ∧
    client.call reg base transport true
      = ((if client.suppress_errors then CallResult.noResult
          else CallResult.raised NBPError.BidAskUnavailable), []) := by
  have hkey : ∀ shape : RequestShape, validRange shape = true →
      clientCall reg base client transport shape RateKind.BID_ASK
        = ((if client.suppress_errors then CallResult.noResult
            else CallResult.raised NBPError.BidAskUnavailable), []) := by
    intro shape hv
    unfold clientCall fetchSteps
    rw [hlook]
    simp only [hv, if_true, bidAskOK, hnc]
    by_cases hsup : client.suppress_errors <;> simp [hsup]
  refine ⟨?_, ?_, ?_, ?_⟩ <;>
    simp only [NBPClient.current, NBPClient.today, NBPClient.date, NBPClient.call,
      kindOf, if_true] <;>
    exact hkey _ rfl

/-- Witness for C4: currency `HRK` (mid-only tables) requesting bid/ask with
a transport that would answer 200. -/
theorem bidask_unavailable_checked_before_network_witness :
    NBPClient.current ⟨"HRK", false, false⟩ [⟨"HRK", "kuna", ["A"]⟩] ""
        (fun _ => TransportOutcome.response 200 none) true
      = (CallResult.raised NBPError.BidAskUnavailable, []) := by
  have h := (bidask_unavailable_checked_before_network [⟨"HRK", "kuna", ["A"]⟩] ""
      ⟨"HRK", false, false⟩ (fun _ => TransportOutcome.response 200 none)
      "2020-01-02" ⟨"HRK", "kuna", ["A"]⟩ rfl rfl).1
  simpa using h

/-- C5: with `suppress_errors` set, every pipeline failure makes the call
return the absence value `noResult` (Python `None`) with the same transport
log; with it unset, the same failure is raised to the caller.  The absence
value is distinct from every returned rate value, in particular from an
empty sequence and from any zero rate. -/
theorem suppress_errors_returns_absence
    (reg : Registry) (base : String) (client : NBPClient)
    (transport : String → TransportOutcome) (shape : RequestShape)
    (kind : RateKind) (e : NBPError) (log : List String)
    (hfail : fetchSteps reg base client transport shape kind
        = (Except.error e, log)) :
    (client.suppress_errors = true →
        clientCall reg base client transport shape kind
          = (CallResult.noResult, log)) ∧
    (client.suppress_errors = false →
        clientCall reg base client transport shape kind
          = (CallResult.raised e, log)) ∧
    (∀ rs : List NBPExchangeRate,
        CallResult.noResult ≠ CallResult.value (FetchValue.many rs)) ∧
    (∀ r : NBPExchangeRate,
        CallResult.noResult ≠ CallResult.value (FetchValue.one r)) := by
  refine ⟨?_, ?_, fun rs => by simp, fun r => by simp⟩ <;>
    · intro hsup
      unfold clientCall
      rw [hfail]
      simp [hsup]

/-- Witness for C5: a suppressing `EUR` client against a transport answering
404 returns the absence value. -/
theorem suppress_errors_returns_absence_witness :
    clientCall [⟨"EUR", "euro", ["A"]⟩] "" ⟨"EUR", false, true⟩
        (fun _ => TransportOutcome.response 404 none)
        RequestShape.CURRENT RateKind.MID_ONLY
      = (CallResult.noResult, ["/exchangerates/rates/a/eur/"]) :=
  (suppress_errors_returns_absence [⟨"EUR", "euro", ["A"]⟩] "" ⟨"EUR", false, true⟩
      (fun _ => TransportOutcome.response 404 none) RequestShape.CURRENT
      RateKind.MID_ONLY (NBPError.APIError (some 404))
      ["/exchangerates/rates/a/eur/"] rfl).1 rfl

/-- C6: when the bid/ask precondition and range validation hold and the
transport outcome is non-success (error status, absent body, or connectivity
failure), the fetch fails with `APIError` carrying the observed status code
(none for a pure connectivity failure), the transport is invoked exactly once
(no retry), no partial result is returned, and under suppression the call
yields the absence value instead. -/
theorem transport_error_raises_apierror
    (reg : Registry) (base : String) (client : NBPClient)
    (transport : String → TransportOutcome) (shape : RequestShape)
    (kind : RateKind) (entry : CurrencyEntry)
    (hlook : lookupCurrency reg client.currency_code = some entry)
    (hba : bidAskOK entry kind = true)
    (hv : validRange shape = true)
    (hns : isSuccess (transport (fetchURI base entry client shape kind)) = false) :
    fetchSteps reg base client transport shape kind
      = (Except.error (NBPError.APIError
            (outcomeStatus (transport (fetchURI base entry client shape kind)))),
         [fetchURI base entry client shape kind]) ∧
    clientCall reg base client transport shape kind
      = ((if client.suppress_errors then CallResult.noResult
          else CallResult.raised (NBPError.APIError
            (outcomeStatus (transport (fetchURI base entry client shape kind))))),
         [fetchURI base entry client shape kind]) := by
  have h1 : fetchSteps reg base client transport shape kind
      = (Except.error (NBPError.APIError
            (outcomeStatus (transport (fetchURI base entry client shape kind)))),
         [fetchURI base entry client shape kind]) := by
    unfold fetchSteps
    rw [hlook]
    simp only [hv, if_true, hba]
    rcases ht : transport (fetchURI base entry client shape kind) with ⟨status, body⟩ | _
    · rw [ht] at hns
      by_cases hs : status = 200
      · subst hs
        cases body with
        | none => simp [ht, outcomeStatus]
        | some p => simp [isSuccess] at hns
      · simp [ht, hs, outcomeStatus]
    · simp [ht, outcomeStatus]
  refine ⟨h1, ?_⟩
  unfold clientCall
  rw [h1]
  by_cases hsup : client.suppress_errors <;> simp [hsup]

/-- Witness for C6: `EUR` (both tables) requesting bid/ask for today against
a transport answering 404. -/
theorem transport_error_raises_apierror_witness :
    fetchSteps [⟨"EUR", "euro", ["A", "C"]⟩] "" ⟨"EUR", false, false⟩
        (fun _ => TransportOutcome.response 404 none)
        RequestShape.TODAY RateKind.BID_ASK
      = (Except.error (NBPError.APIError (some 404)),
         ["/exchangerates/rates/c/eur/today"]) := by
  have h := (transport_error_raises_apierror [⟨"EUR", "euro", ["A", "C"]⟩] ""
      ⟨"EUR", false, false⟩ (fun _ => TransportOutcome.response 404 none)
      RequestShape.TODAY RateKind.BID_ASK ⟨"EUR", "euro", ["A", "C"]⟩
      rfl rfl rfl rfl).1
  exact h

/-- C7: a `RANGE(start, end)` request with `start > end` fails with the
validation error before any transport call — the transport log is empty for
every transport behaviour and every rate kind. -/
theorem range_validation_before_transport
    (reg : Registry) (base : String) (client : NBPClient)
    (transport : String → TransportOutcome) (kind : RateKind) (s t : String)
    (h : strLt t s = true) :
    fetchSteps reg base client transport (RequestShape.RANGE s t) kind
      = (Except.error NBPError.DateRangeError, []) ∧
    clientCall reg base client transport (RequestShape.RANGE s t) kind
      = ((if client.suppress_errors then CallResult.noResult
          else CallResult.raised NBPError.DateRangeError), []) := by
  have hv : validRange (RequestShape.RANGE s t) = false := by
    simp [validRange, h]
  have h1 : fetchSteps reg base client transport (RequestShape.RANGE s t) kind
      = (Except.error NBPError.DateRangeError, []) := by
    unfold fetchSteps
    simp [hv]
  refine ⟨h1, ?_⟩
  unfold clientCall
  rw [h1]
  by_cases hsup : client.suppress_errors <;> simp [hsup]

/-- Witness for C7: the reversed range 2020-01-05 .. 2020-01-02. -/
theorem range_validation_before_transport_witness :
    fetchSteps [⟨"EUR", "euro", ["A"]⟩] "" ⟨"EUR", false, false⟩
        (fun _ => TransportOutcome.response 200 none)
        (RequestShape.RANGE "2020-01-05" "2020-01-02") RateKind.MID_ONLY
      = (Except.error NBPError.DateRangeError, []) :=
  (range_validation_before_transport [⟨"EUR", "euro", ["A"]⟩] "" ⟨"EUR", false, false⟩
      (fun _ => TransportOutcome.response 200 none) RateKind.MID_ONLY
      "2020-01-05" "2020-01-02" (by decide)).1

/-- C8: every resource locator a fetch sends to the transport is
`<base>/exchangerates/rates/<table>/<currencyCode>/<tail>` with currency code
(and table) lower-cased, the tail being empty for `CURRENT` (and hence for
direct invocation, which fetches with shape `CURRENT`), the literal `today`
for `TODAY`, the single ISO date for `ON_DATE`, and the start/end pair for
`RANGE`. -/
theorem resource_locator_shape
    (reg : Registry) (base : String) (client : NBPClient)
    (transport : String → TransportOutcome) (shape : RequestShape)
    (kind : RateKind) (entry : CurrencyEntry) (u : String)
    (hlook : lookupCurrency reg client.currency_code = some entry)
    (hu : u ∈ (fetchSteps reg base client transport shape kind).2) :
    u = base ++ "/exchangerates/rates/" ++ strLower (tableFor entry kind) ++ "/"
        ++ strLower client.currency_code ++ "/" ++ uriTail shape ∧
    uriTail RequestShape.CURRENT = "" ∧
    uriTail RequestShape.TODAY = "today" ∧
    (∀ dd : String, uriTail (RequestShape.ON_DATE dd) = dd) ∧
    (∀ s2 t2 : String, uriTail (RequestShape.RANGE s2 t2) = s2 ++ "/" ++ t2) := by
  refine ⟨?_, rfl, rfl, fun dd => rfl, fun s2 t2 => rfl⟩
  have hlog : (fetchSteps reg base client transport shape kind).2 = [] ∨
      (fetchSteps reg base client transport shape kind).2
        = [fetchURI base entry client shape kind] := by
    unfold fetchSteps
    rw [hlook]
    by_cases hv : validRange shape
    · simp only [hv, if_true]
      by_cases hba : bidAskOK entry kind
      · simp only [hba, if_true]
        rcases ht : transport (fetchURI base entry client shape kind)
          with ⟨status, body⟩ | _
        · simp only [ht]
          by_cases hs : status = 200
          · subst hs
            cases body with
            | none => simp
            | some p =>
                cases shape with
                | RANGE s2 t2 => simp
                | CURRENT => cases hr : p.rates <;> simp [hr]
                | TODAY => cases hr : p.rates <;> simp [hr]
                | ON_DATE dd => cases hr : p.rates <;> simp [hr]
          · simp [hs]
        · simp [ht]
      · simp [hba]
    · simp [hv]
  rcases hlog with hl | hl
  · rw [hl] at hu
    simp at hu
  · rw [hl] at hu
    have := List.mem_singleton.mp hu
    subst this
    rfl

/-- Witness for C8: the locator of a `TODAY` mid-only fetch for `EUR`
(mid-only table `A`). -/
theorem resource_locator_shape_witness :
    ("/exchangerates/rates/a/eur/today" : String)
      = "" ++ "/exchangerates/rates/"
        ++ strLower (tableFor ⟨"EUR", "euro", ["A"]⟩ RateKind.MID_ONLY) ++ "/"
        ++ strLower "EUR" ++ "/" ++ uriTail RequestShape.TODAY :=
  (resource_locator_shape [⟨"EUR", "euro", ["A"]⟩] "" ⟨"EUR", false, false⟩
      (fun _ => TransportOutcome.response 200 none) RequestShape.TODAY
      RateKind.MID_ONLY ⟨"EUR", "euro", ["A"]⟩ "/exchangerates/rates/a/eur/today"
      rfl (by decide)).1

end NBPy
